import Mathlib

/-
  Verification of the sandboxed code-execution core of the docAgent MCP server.

  Shallow embedding of two source files:
  - src/python_runtime_container_setup/watcher.py  (artifact watcher inside the container)
  - src/app/tools/py_runtime.py                    (host-side orchestrator `exec_py_runtime`)

  Strings are modelled as lists of characters (`Chars`); Python str methods
  (strip, splitlines, lower, startswith, endswith, os.path.basename,
  os.path.splitext) are modelled as functions on `Chars`.  `splitlines` is
  modelled for LF-terminated text (the only line terminator the container
  protocol produces); `strip` uses `Char.isWhitespace`, covering the ASCII
  whitespace actually present in the protocol streams.
-/

abbrev Chars := List Char

/-- Python `str.strip()` on a character list: drop whitespace from both ends. -/
def pyStrip (s : Chars) : Chars :=
  ((s.dropWhile Char.isWhitespace).reverse.dropWhile Char.isWhitespace).reverse

/-- Python `str.splitlines()` restricted to LF: split a character stream into
lines at each `\n`, the terminator not kept, with no trailing empty line for a
terminating `\n` (so `"a\n"` gives one line, `""` gives none). -/
def splitNl : Chars → List Chars
  | [] => []
  | c :: cs =>
    if c = '\n' then [] :: splitNl cs
    else
      match splitNl cs with
      | [] => [[c]]
      | l :: ls => (c :: l) :: ls

/-- Python `str.lower()` (ASCII lowering suffices for the extension sets). -/
def toLowerL (s : Chars) : Chars := s.map Char.toLower

/-- posixpath `os.path.basename`: the part after the last slash. -/
def basenameL (p : Chars) : Chars := (p.reverse.takeWhile (fun c => c ≠ '/')).reverse

/-- The extension read from the last dot of a name (dot included), empty when
the name has no dot.  This is the plain notion of extension the claims use. -/
def extFromLastDot (fn : Chars) : Chars :=
  if fn.contains '.' then '.' :: (fn.reverse.takeWhile (fun c => c ≠ '.')).reverse else []

/-- posixpath `os.path.splitext(fn)[1]` for a slash-free name: the suffix from
the last dot, except that the leading run of dots of the name never counts as
an extension separator (`.DS_Store` has extension `""`).  Equivalently: if the
name still has a dot once its leading dots are removed, the extension is the
one from the last dot, else it is empty. -/
def splitext_ext (fn : Chars) : Chars :=
  if (fn.dropWhile (fun c => c = '.')).contains '.' then
    extFromLastDot (fn.dropWhile (fun c => c = '.'))
  else []

/- ## Watcher model (src/python_runtime_container_setup/watcher.py) -/

/-- Blacklisted exact filenames (watcher.py, `IGNORED_FILES`). -/
def IGNORED_FILES : List Chars := [".DS_Store".data, "Thumbs.db".data]

/-- Blacklisted extensions (watcher.py, `IGNORED_EXTENSIONS`). -/
def IGNORED_EXTENSIONS : List Chars := [".pyc".data, ".log".data, ".tmp".data]

/-- Blacklisted filename prefixes (watcher.py, `IGNORED_PREFIXES`). -/
def IGNORED_PREFIXES : List Chars := ["__pycache__".data, ".".data]

/-- The skip condition of `UploadHandler.on_created` (watcher.py lines 60-65):
filename in the ignored-filename set, or `os.path.splitext` extension lowered
in the ignored-extension set, or the filename starts with an ignored prefix. -/
def is_ignored (filename : Chars) : Bool :=
  IGNORED_FILES.any (fun x => filename == x) ||
  IGNORED_EXTENSIONS.any (fun x => toLowerL (splitext_ext filename) == x) ||
  IGNORED_PREFIXES.any (fun pre => pre.isPrefixOf filename)

/-- The rejection predicate written from the words of claim C6: filename in
the two-name set, or the extension taken from the last dot, lowercased, in the
three-extension set, or the filename starting with `__pycache__` or `.`. -/
def claim_rejected (filename : Chars) : Bool :=
  filename == ".DS_Store".data || filename == "Thumbs.db".data ||
  toLowerL (extFromLastDot filename) == ".pyc".data ||
  toLowerL (extFromLastDot filename) == ".log".data ||
  toLowerL (extFromLastDot filename) == ".tmp".data ||
  "__pycache__".data.isPrefixOf filename ||
  ".".data.isPrefixOf filename

/-- A watchdog file-creation event, as consumed by `UploadHandler.on_created`. -/
structure WatchEvent where
  is_directory : Bool
  src_path : Chars
deriving DecidableEq

/-- S3 object key generation (watcher.py `get_unique_s3_obj_key`): the
f-string `now + underscore + uid + extension`, where `now` is the 14-digit
timestamp `datetime.now().strftime` produces and `uid` is `str(uuid4())`
(always 36 characters).  The extension comes from `os.path.splitext`, so it
carries its own leading dot. -/
def get_unique_s3_obj_key (now uid extension : Chars) : Chars :=
  now ++ "_".data ++ uid ++ extension

/-- What one `on_created` call does: return without any upload, or attempt
exactly one upload under a fresh key. -/
inductive WatchAction where
  | skip
  | upload (key : Chars)
deriving DecidableEq

/-- `UploadHandler.on_created` (watcher.py lines 54-70), with the fresh
timestamp and uuid of the event's key generation passed as parameters:
directories and paths ending in `.done` return at once; ignored filenames are
skipped; everything else gets one upload attempt under a fresh key. -/
def on_created (now uid : Chars) (event : WatchEvent) : WatchAction :=
  if event.is_directory || ".done".data.isSuffixOf event.src_path then .skip
  else
    let filename := basenameL event.src_path
    if is_ignored filename then .skip
    else .upload (get_unique_s3_obj_key now uid (splitext_ext filename))

/-- The keys of the uploads a sequence of events triggers (each event with the
timestamp/uuid pair its key generation drew). -/
def attempted_uploads : List (Chars × Chars × WatchEvent) → List Chars
  | [] => []
  | g :: gs =>
    match on_created g.1 g.2.1 g.2.2 with
    | .skip => attempted_uploads gs
    | .upload k => k :: attempted_uploads gs

/-- The watcher's `uploaded_files` accumulator (watcher.py line 32): a Python
`set()` into which each successfully presigned URL is `add`ed.  Modelled as a
finite set, which is exactly the information a Python set retains: membership,
but not insertion order. -/
def uploaded_files_after (urls : List Chars) : Finset Chars :=
  urls.foldl (fun s u => insert u s) ∅

/-- First-uploaded URL of the two-artifact run used to refute C5's ordering. -/
def c5_url_first : Chars := "https://s3/a.txt".data

/-- Second-uploaded URL of the two-artifact run used to refute C5's ordering. -/
def c5_url_second : Chars := "https://s3/b.txt".data

/- ## Completion-protocol parser (py_runtime.py lines 76-90) -/

/-- The protocol marker line the watcher prints before the URL block. -/
def markerLine : Chars := "=== Uploaded Files ===".data

/-- The URL-collecting loop of `exec_py_runtime` (py_runtime.py lines 79-87):
scan the lines with a collecting flag; a line whose `strip()` equals the
marker sets the flag and is skipped; while the flag is set, a line whose
`strip()` starts with `http` contributes its stripped form, in order. -/
def collectUrls : Bool → List Chars → List Chars
  | _, [] => []
  | collecting, l :: ls =>
    if pyStrip l == markerLine then collectUrls true ls
    else if collecting && "http".data.isPrefixOf (pyStrip l) then
      pyStrip l :: collectUrls collecting ls
    else collectUrls collecting ls

/-- The whole parsing step of `exec_py_runtime` on a captured stdout:
`output = result.stdout.strip()` (line 76) followed by the line scan. -/
def execParse (stdout : Chars) : List Chars :=
  collectUrls false (splitNl (pyStrip stdout))

/-- Python `", ".join(urls)` — the success return value (py_runtime.py line 90). -/
def joinComma (urls : List Chars) : Chars := List.intercalate ", ".data urls

/-- The scan exactly as claim C1 words it: the collecting flag is set the
instant a line equals the marker exactly (no trimming), and while collecting
every line that after trimming whitespace starts with `http` is appended —
the line itself, in original order. -/
def refCollect : Bool → List Chars → List Chars
  | _, [] => []
  | collecting, l :: ls =>
    if l == markerLine then refCollect true ls
    else if collecting && "http".data.isPrefixOf (pyStrip l) then
      l :: refCollect collecting ls
    else refCollect collecting ls

/-- Claim C1's reference parser applied to the captured stdout as given. -/
def refParseClaim (stdout : Chars) : List Chars := refCollect false (splitNl stdout)

/-- The declarative form of the amended reference: drop lines until one whose
trimmed form is the marker, then keep the trimmed form of every later line
whose trimmed form starts with `http`. -/
def refCoreLines (ls : List Chars) : List Chars :=
  match ls.dropWhile (fun l => !(pyStrip l == markerLine)) with
  | [] => []
  | _ :: rest => (rest.filter (fun l => "http".data.isPrefixOf (pyStrip l))).map pyStrip

/-- The amended reference parser of claim C1: strip the captured stream of
outer whitespace, split into lines, and collect as `refCoreLines`. -/
def refParseAmended (stdout : Chars) : List Chars := refCoreLines (splitNl (pyStrip stdout))

/-- Captured stdout whose marker line carries leading whitespace — the
exact-equality reading of the claim and the code diverge here. -/
def c1_cex_marker_ws : Chars := "junk\n === Uploaded Files ===\nhttp://a".data

/-- Captured stdout whose URL line carries leading whitespace — the code
appends the trimmed line, the claim's words append the line itself. -/
def c1_cex_url_ws : Chars := "=== Uploaded Files ===\n  http://b".data

/-- The stdout of claim C1's example: the marker, three URLs, two other lines. -/
def c1_example : Chars :=
  "=== Uploaded Files ===\nhttp://e/1\nhttp://e/2\nhttp://e/3\ndone\nbye".data

/-- A captured stdout in which the marker never appears. -/
def c1_no_marker : Chars := "hello\nworld".data

/- ## Orchestrator model (src/app/tools/py_runtime.py, exec_py_runtime) -/

/-- Outcome of one of the two preflight `subprocess.run` calls (no timeout):
either the process ran and returned a code with captured output, or spawning
raised `FileNotFoundError` (binary absent) or `PermissionError`. -/
inductive Spawn where
  | ok (returncode : Int) (stdout stderr : Chars)
  | noBinary
  | noPermission
deriving DecidableEq

/-- Outcome of the `subprocess.run(docker_cmd, ..., timeout=timeout)` call:
as `Spawn`, plus expiry of the wall-clock deadline, which raises
`subprocess.TimeoutExpired`. -/
inductive RunCall where
  | ok (returncode : Int) (stdout stderr : Chars)
  | timedOut
  | noBinary
  | noPermission
deriving DecidableEq

/-- The external behaviour one call of `exec_py_runtime` observes: whether
the staging write fails after the temporary file is created (for instance
`input.code.encode("utf-8")` raising `UnicodeEncodeError` on a lone
surrogate, or an OS write error) together with that exception's text, and the
results of the three subprocess calls, in program order. -/
structure Env where
  encodeFails : Bool
  encodeErr : Chars
  version : Spawn
  inspect : Spawn
  run : RunCall
deriving DecidableEq

/-- The Python exception classes `exec_py_runtime` lets escape, with message. -/
inductive PyError where
  | runtimeError (msg : Chars)
  | timeoutError (msg : Chars)
  | fileNotFoundError (msg : Chars)
  | permissionError (msg : Chars)
deriving DecidableEq

/-- Either the string `exec_py_runtime` returns or the exception it raises. -/
inductive Outcome where
  | ok (ret : Chars)
  | raised (e : PyError)
deriving DecidableEq

/-- Result of one modelled call: the outcome plus bookkeeping facts — whether
the staged temporary file is gone when the call returns or raises, whether an
isolated `docker run` was started, and whether the timed wait on the isolated
run took place (the only step that consumes timeout budget). -/
structure ExecResult where
  outcome : Outcome
  staged_file_removed : Bool
  run_attempted : Bool
  timed_wait_used : Bool
deriving DecidableEq

/-- Wrapping applied by the blanket `except Exception` arm (py_runtime.py
line 103): any exception not matched by the earlier arms is re-raised as
`RuntimeError` with this prefix on its text. -/
def uerr (m : Chars) : Chars := "❌ Unexpected error: ".data ++ m

/-- Inner message of the `EnvironmentError` raised when `docker --version`
exits nonzero (py_runtime.py line 37). -/
def msg_docker_unavailable : Chars := "Docker is not installed or not accessible.".data

/-- Inner message of the `ValueError` raised when `docker inspect` exits
nonzero (py_runtime.py line 50), parametrised by the configured image name. -/
def msg_image (name : Chars) : Chars :=
  "Image \x27".data ++ name ++ "\x27 not found or inaccessible.".data

/-- Inner message of the `RuntimeError` raised on a nonzero container exit
(py_runtime.py line 74): the captured stderr passed through verbatim, stripped. -/
def msg_docker_failed (stderr : Chars) : Chars :=
  "Docker failed: ".data ++ pyStrip stderr

/-- Message of the `TimeoutError` raised by the `TimeoutExpired` arm (line 94). -/
def msg_timeout : Chars := "❌ Code execution timed out.".data

/-- Message of the re-raised `FileNotFoundError` (py_runtime.py line 97). -/
def msg_no_docker : Chars := "❌ Docker not found. Please install Docker.".data

/-- Message of the re-raised `PermissionError` (py_runtime.py line 100). -/
def msg_permission : Chars :=
  "❌ Permission denied. Try: sudo usermod -aG docker $USER".data

/-- Default of `os.getenv("DOCKER_CONTAINER_NAME", "py-runtime")`. -/
def DOCKER_CONTAINER_NAME : Chars := "py-runtime".data

/-- Shallow embedding of `exec_py_runtime` (py_runtime.py lines 17-109),
following the source's control flow in order.  Stage the code into a
temporary file: if the encode/write raises inside the `with` block, the file
already exists but `tmpfile_path` was never assigned, so the blanket
`except Exception` arm re-raises the error wrapped and the `finally` guard
`"tmpfile_path" in locals()` is false — the staged file is NOT unlinked.
Then check `docker --version`: a nonzero exit raises `EnvironmentError`,
which — matching none of `TimeoutExpired`, `FileNotFoundError`,
`PermissionError` — lands in the `except Exception` arm and resurfaces as
`RuntimeError` with the `Unexpected error` prefix.  Then check
`docker inspect`: a nonzero exit raises `ValueError`, wrapped the same way.
Then run the container under the timeout: expiry raises `TimeoutError`
(line 94); a nonzero exit raises `RuntimeError` `Docker failed: stderr`,
wrapped by the blanket arm; a zero exit parses stdout and returns the
comma-joined URLs.  A `FileNotFoundError` or `PermissionError` from any
subprocess call is re-raised with its fixed message.  On every path other
than the failed staging write the `finally` block unlinks the staged file. -/
def exec_py_runtime (name : Chars) (env : Env) : ExecResult :=
  if env.encodeFails then
    ⟨.raised (.runtimeError (uerr env.encodeErr)), false, false, false⟩
  else
    match env.version with
    | .noBinary => ⟨.raised (.fileNotFoundError msg_no_docker), true, false, false⟩
    | .noPermission => ⟨.raised (.permissionError msg_permission), true, false, false⟩
    | .ok rc _ _ =>
      if rc ≠ 0 then
        ⟨.raised (.runtimeError (uerr msg_docker_unavailable)), true, false, false⟩
      else
        match env.inspect with
        | .noBinary => ⟨.raised (.fileNotFoundError msg_no_docker), true, false, false⟩
        | .noPermission => ⟨.raised (.permissionError msg_permission), true, false, false⟩
        | .ok rc2 _ _ =>
          if rc2 ≠ 0 then
            ⟨.raised (.runtimeError (uerr (msg_image name))), true, false, false⟩
          else
            match env.run with
            | .timedOut => ⟨.raised (.timeoutError msg_timeout), true, true, true⟩
            | .noBinary => ⟨.raised (.fileNotFoundError msg_no_docker), true, false, false⟩
            | .noPermission =>
              ⟨.raised (.permissionError msg_permission), true, false, false⟩
            | .ok rc3 out err =>
              if rc3 ≠ 0 then
                ⟨.raised (.runtimeError (uerr (msg_docker_failed err))), true, true, true⟩
              else
                ⟨.ok (joinComma (execParse out)), true, true, true⟩

/-- Environment in which `docker --version` exits nonzero. -/
def env_docker_unreachable : Env := ⟨false, [], .ok 1 [] [], .ok 0 [] [], .ok 0 [] []⟩

/-- Environment in which `docker inspect` exits nonzero (image missing). -/
def env_image_missing : Env := ⟨false, [], .ok 0 [] [], .ok 1 [] [], .ok 0 [] []⟩

/-- Environment in which the isolated run outlives the wall-clock timeout. -/
def env_timeout : Env := ⟨false, [], .ok 0 [] [], .ok 0 [] [], .timedOut⟩

/-- Environment in which spawning docker raises `PermissionError`. -/
def env_permission_denied : Env := ⟨false, [], .noPermission, .ok 0 [] [], .ok 0 [] []⟩

/-- Environment in which the container exits nonzero with the given stderr. -/
def env_runtime_failure (stderr : Chars) : Env :=
  ⟨false, [], .ok 0 [] [], .ok 0 [] [], .ok 1 [] stderr⟩

/-- Environment in which the container exits zero with the given stdout. -/
def env_run_ok (stdout : Chars) : Env :=
  ⟨false, [], .ok 0 [] [], .ok 0 [] [], .ok 0 stdout []⟩

/-- Environment in which the staging write raises after the temporary file
was created (for instance a lone surrogate in the submitted code making
`input.code.encode("utf-8")` raise `UnicodeEncodeError`). -/
def env_staging_write_fails : Env :=
  ⟨true, "surrogates not allowed".data, .ok 0 [] [], .ok 0 [] [], .ok 0 [] []⟩

/-- Host-visible processes of one isolated run: the `docker run` CLI client
(the direct child of the server process) and the daemon-side container in
which the user code and the watcher execute. -/
structure RunProcs where
  client_alive : Bool
  container_alive : Bool
deriving DecidableEq

/-- What CPython's `subprocess.run` does when its timeout expires: it kills
its direct child (`Popen.kill`) — here the docker CLI client — and re-raises
`TimeoutExpired`.  The container is not a descendant of the client: it is
spawned by the docker daemon, so it receives no signal and keeps running. -/
def subprocess_timeout_kill (p : RunProcs) : RunProcs := ⟨false, p.container_alive⟩

/-- The complete process handling on `exec_py_runtime`'s timeout path
(py_runtime.py lines 92-94): the `except TimeoutExpired` arm only logs and
raises `TimeoutError` — it issues no `docker kill`/`docker stop` — so the
process state when the call raises is exactly what `subprocess.run` left. -/
def timeout_path_procs (p : RunProcs) : RunProcs := subprocess_timeout_kill p

/-- A secret of the run's environment (the container receives the host `.env`
through `--env-file`), as captured on stderr when user code prints it there. -/
def c4_secret : Chars :=
  "AWS_SECRET_ACCESS_KEY=wJalrXUtnFEMI/K7MDENG/bPxRfiCYEXAMPLEKEY".data

/- ## Helper lemmas about the string model -/

/-- Once something in the first block fails the predicate, `takeWhile` over an
appended list never reaches the second block. -/
theorem takeWhile_append_of_exists_not {p : Char → Bool} {l₁ : Chars}
    (l₂ : Chars) (h : ∃ a ∈ l₁, p a = false) :
    (l₁ ++ l₂).takeWhile p = l₁.takeWhile p := by
  induction l₁ with
  | nil => rcases h with ⟨a, ha, _⟩; cases ha
  | cons c cs ih =>
    rcases h with ⟨a, ha, hpa⟩
    by_cases hc : p c = true
    · simp only [List.cons_append, List.takeWhile_cons, hc]
      have : ∃ a ∈ cs, p a = false := by
        rcases List.mem_cons.mp ha with rfl | hmem
        · exact absurd hc (by simp [hpa])
        · exact ⟨a, hmem, hpa⟩
      rw [ih this]
    · simp [List.takeWhile_cons, hc]

/-- Dropping the leading dots of a name does not change the extension read
from its last dot, provided a dot survives the dropping. -/
theorem extFromLastDot_dropWhile_dots {fn : Chars}
    (h : (fn.dropWhile (fun c => c = '.')).contains '.' = true) :
    extFromLastDot (fn.dropWhile (fun c => c = '.')) = extFromLastDot fn := by
  set stem := fn.dropWhile (fun c => c = '.') with hstem
  have hmem : '.' ∈ stem := List.elem_iff.mp h
  have hsplit : fn.takeWhile (fun c => c = '.') ++ stem = fn := by
    rw [hstem]; exact List.takeWhile_append_dropWhile _ _
  have hfn : '.' ∈ fn := by
    rw [← hsplit]; exact List.mem_append_right _ hmem
  have hfnc : fn.contains '.' = true := List.elem_iff.mpr hfn
  rw [extFromLastDot, extFromLastDot, if_pos h, if_pos hfnc]
  have hrev : fn.reverse = stem.reverse ++ (fn.takeWhile (fun c => c = '.')).reverse := by
    conv_lhs => rw [← hsplit]
    rw [List.reverse_append]
  rw [hrev, takeWhile_append_of_exists_not _ ⟨'.', List.mem_reverse.mpr hmem, by simp⟩]

/-- A name whose dots all sit in its leading run of dots, yet which does have
a dot, necessarily starts with a dot. -/
theorem dot_lead_of_no_dot_in_stem {fn : Chars}
    (h : (fn.dropWhile (fun c => c = '.')).contains '.' = false)
    (hd : fn.contains '.' = true) :
    ".".data.isPrefixOf fn = true := by
  match fn with
  | [] => simp at hd
  | c :: t =>
    by_cases hc : c = '.'
    · subst hc; simp [List.isPrefixOf]
    · rw [List.dropWhile_cons, if_neg (by simpa using hc)] at h
      rw [h] at hd
      cases hd

/-- Two appends with the same left block differ when the heads of the right
blocks differ. -/
theorem append_cons_ne_append_cons {a : Chars} {c d : Char} (h : c ≠ d)
    (x y : Chars) : a ++ (c :: x) ≠ a ++ (d :: y) := by
  intro he
  have h2 := List.append_cancel_left he
  injection h2 with h3 _
  exact h h3

/-- The wrapped runtime-unreachable and image-missing messages differ, for
every image name. -/
theorem msg_ne_env_image (name : Chars) :
    uerr msg_docker_unavailable ≠ uerr (msg_image name) :=
  append_cons_ne_append_cons (a := "❌ Unexpected error: ".data)
    (c := 'D') (d := 'I') (by decide)
    "ocker is not installed or not accessible.".data
    ("mage \x27".data ++ name ++ "\x27 not found or inaccessible.".data)

/-- The wrapped runtime-unreachable and container-failure messages differ,
for every captured stderr. -/
theorem msg_ne_env_fail (stderr : Chars) :
    uerr msg_docker_unavailable ≠ uerr (msg_docker_failed stderr) :=
  append_cons_ne_append_cons (a := "❌ Unexpected error: Docker ".data)
    (c := 'i') (d := 'f') (by decide)
    "s not installed or not accessible.".data
    ("ailed: ".data ++ pyStrip stderr)

/-- The wrapped image-missing and container-failure messages differ, for
every image name and captured stderr. -/
theorem msg_ne_image_fail (name stderr : Chars) :
    uerr (msg_image name) ≠ uerr (msg_docker_failed stderr) :=
  append_cons_ne_append_cons (a := "❌ Unexpected error: ".data)
    (c := 'I') (d := 'D') (by decide)
    ("mage \x27".data ++ name ++ "\x27 not found or inaccessible.".data)
    ("ocker failed: ".data ++ pyStrip stderr)

/- ## Claim theorems -/

/-- C6: the ignore filter is total and deterministic — a total function of the
filename.  For every filename the `on_created` skip condition holds exactly
when the filename is `.DS_Store` or `Thumbs.db`, or its extension lowercased
is `.pyc`/`.log`/`.tmp`, or it starts with `__pycache__` or with a dot; and
every filename the filter rejects is never uploaded by `on_created`. -/
theorem c6_filter_total_deterministic :
    (∀ filename : Chars, is_ignored filename = claim_rejected filename) ∧
    (∀ (now uid : Chars) (ev : WatchEvent),
      is_ignored (basenameL ev.src_path) = true → on_created now uid ev = .skip) := by
  constructor
  · intro fn
    by_cases hb : (fn.dropWhile (fun c => c = '.')).contains '.' = true
    · rw [is_ignored, splitext_ext, if_pos hb, extFromLastDot_dropWhile_dots hb,
        claim_rejected]
      simp [IGNORED_FILES, IGNORED_EXTENSIONS, IGNORED_PREFIXES, Bool.or_assoc]
    · have hb' : (fn.dropWhile (fun c => c = '.')).contains '.' = false := by
        simpa using hb
      rw [is_ignored, splitext_ext, if_neg (by rw [hb']; simp)]
      by_cases hd : fn.contains '.' = true
      · have hpd := dot_lead_of_no_dot_in_stem hb' hd
        simp [claim_rejected, IGNORED_FILES, IGNORED_EXTENSIONS, IGNORED_PREFIXES,
          hpd, toLowerL]
      · have hext : extFromLastDot fn = [] := by
          rw [extFromLastDot, if_neg (by simpa using hd)]
        rw [claim_rejected, hext]
        simp [IGNORED_FILES, IGNORED_EXTENSIONS, IGNORED_PREFIXES, toLowerL,
          Bool.or_assoc]
  · intro now uid ev hig
    rw [on_created]
    by_cases hskip : (ev.is_directory || ".done".data.isSuffixOf ev.src_path) = true
    · rw [if_pos hskip]
    · rw [if_neg hskip]
      simp only [hig, if_pos]

/-- Witness for C6 at a concrete event: a `.DS_Store` creation event is
rejected by the filter and `on_created` uploads nothing for it. -/
theorem c6_filter_total_deterministic_witness :
    is_ignored (basenameL "/app/.DS_Store".data) = claim_rejected (basenameL "/app/.DS_Store".data) ∧
    on_created "20260101093000".data "11111111-2222-4333-8444-555555555555".data
      ⟨false, "/app/.DS_Store".data⟩ = .skip :=
  ⟨c6_filter_total_deterministic.1 (basenameL "/app/.DS_Store".data),
   c6_filter_total_deterministic.2 "20260101093000".data
     "11111111-2222-4333-8444-555555555555".data
     ⟨false, "/app/.DS_Store".data⟩ (by decide)⟩

/-- C7: every generated key is the timestamp, an underscore, the uuid and the
extension, in that order; with the fixed 14-character `strftime` timestamp
and the fixed 36-character `str(uuid4())` layout, the uuid occupies a fixed
slice of the key, so two generations whose uuid components differ always give
different keys for the same extension, and a batch of generations with
pairwise-distinct uuids yields pairwise-distinct keys. -/
theorem c7_key_uid_injective :
    (∀ (t1 t2 u1 u2 ext : Chars), t1.length = 14 → t2.length = 14 →
      u1.length = 36 → u2.length = 36 → u1 ≠ u2 →
      get_unique_s3_obj_key t1 u1 ext ≠ get_unique_s3_obj_key t2 u2 ext) ∧
    (∀ (gens : List (Chars × Chars)) (ext : Chars),
      (∀ g ∈ gens, g.1.length = 14 ∧ g.2.length = 36) →
      gens.Pairwise (fun a b => a.2 ≠ b.2) →
      (gens.map (fun g => get_unique_s3_obj_key g.1 g.2 ext)).Pairwise
        (fun k1 k2 => k1 ≠ k2)) := by
  have hinj : ∀ (t1 t2 u1 u2 ext : Chars), t1.length = 14 → t2.length = 14 →
      u1.length = 36 → u2.length = 36 → u1 ≠ u2 →
      get_unique_s3_obj_key t1 u1 ext ≠ get_unique_s3_obj_key t2 u2 ext := by
    intro t1 t2 u1 u2 ext h1 h2 h3 h4 hne heq
    rw [get_unique_s3_obj_key, get_unique_s3_obj_key] at heq
    have h5 : t1 ++ "_".data ++ u1 = t2 ++ "_".data ++ u2 :=
      List.append_cancel_right heq
    have hlen : (t1 ++ "_".data).length = (t2 ++ "_".data).length := by
      simp [h1, h2]
    exact hne (List.append_inj h5 hlen).2
  refine ⟨hinj, ?_⟩
  intro gens ext hlen hpw
  rw [List.pairwise_map]
  refine hpw.imp_of_mem ?_
  intro a b ha hb hne
  exact hinj a.1 b.1 a.2 b.2 ext (hlen a ha).1 (hlen b hb).1 (hlen a ha).2
    (hlen b hb).2 hne

/-- Witness for C7 at concrete generations: two keys drawn with the same
timestamp and extension but different uuids differ. -/
theorem c7_key_uid_injective_witness :
    get_unique_s3_obj_key "20260101093000".data
        "11111111-2222-4333-8444-555555555555".data ".txt".data
      ≠ get_unique_s3_obj_key "20260101093000".data
        "11111111-2222-4333-8444-555555555556".data ".txt".data :=
  c7_key_uid_injective.1 "20260101093000".data "20260101093000".data
    "11111111-2222-4333-8444-555555555555".data
    "11111111-2222-4333-8444-555555555556".data ".txt".data
    (by decide) (by decide) (by decide) (by decide) (by decide)

/-- C10: `on_created` returns without uploading for every directory event and
for every path ending in `.done`; consequently a run's attempted uploads are
unchanged when those events are removed — the completion sentinel never
contributes an upload, hence never a URL. -/
theorem c10_sentinel_never_uploaded :
    (∀ (now uid : Chars) (ev : WatchEvent),
      ev.is_directory = true ∨ ".done".data.isSuffixOf ev.src_path = true →
      on_created now uid ev = .skip) ∧
    (∀ gens : List (Chars × Chars × WatchEvent),
      attempted_uploads gens = attempted_uploads (gens.filter
        (fun g => !(g.2.2.is_directory || ".done".data.isSuffixOf g.2.2.src_path)))) := by
  constructor
  · intro now uid ev h
    rw [on_created, if_pos]
    rcases h with h | h <;> simp [h]
  · intro gens
    induction gens with
    | nil => rfl
    | cons g gs ih =>
      by_cases hg : (g.2.2.is_directory || ".done".data.isSuffixOf g.2.2.src_path) = true
      · have hskip : on_created g.1 g.2.1 g.2.2 = .skip := by
          rw [on_created, if_pos hg]
        have hp : (!(g.2.2.is_directory || ".done".data.isSuffixOf g.2.2.src_path))
            = false := by rw [hg]; rfl
        have hfil : List.filter
            (fun g => !(g.2.2.is_directory || ".done".data.isSuffixOf g.2.2.src_path))
            (g :: gs)
            = List.filter
            (fun g => !(g.2.2.is_directory || ".done".data.isSuffixOf g.2.2.src_path))
            gs := by
          rw [List.filter_cons, hp]; simp
        rw [hfil]
        simp only [attempted_uploads, hskip]
        exact ih
      · have hb : (g.2.2.is_directory || ".done".data.isSuffixOf g.2.2.src_path)
            = false := by rw [Bool.not_eq_true] at hg; exact hg
        have hp : (!(g.2.2.is_directory || ".done".data.isSuffixOf g.2.2.src_path))
            = true := by rw [hb]; rfl
        have hfil : List.filter
            (fun g => !(g.2.2.is_directory || ".done".data.isSuffixOf g.2.2.src_path))
            (g :: gs)
            = g :: List.filter
            (fun g => !(g.2.2.is_directory || ".done".data.isSuffixOf g.2.2.src_path))
            gs := by
          rw [List.filter_cons, hp]; simp
        rw [hfil]
        cases hoc : on_created g.1 g.2.1 g.2.2 <;>
          simp only [attempted_uploads, hoc] <;>
          rw [ih]

/-- Witness for C10 at the concrete sentinel event: creating `/app/.done`
uploads nothing. -/
theorem c10_sentinel_never_uploaded_witness :
    on_created "20260101093000".data "11111111-2222-4333-8444-555555555555".data
      ⟨false, "/app/.done".data⟩ = .skip :=
  c10_sentinel_never_uploaded.1 "20260101093000".data
    "11111111-2222-4333-8444-555555555555".data
    ⟨false, "/app/.done".data⟩ (Or.inr (by decide))

/-- C5 (refutation support): the watcher accumulates presigned URLs in a
Python `set`, and the final state of that set is identical for the two
opposite completion orders of the same two uploads.  Hence no report read off
the set alone — which is what the watcher prints after the marker — can list
the URLs in upload-completion order for both runs: completion order is not
recoverable from `uploaded_files`. -/
theorem c5_set_loses_completion_order :
    uploaded_files_after [c5_url_first, c5_url_second]
      = uploaded_files_after [c5_url_second, c5_url_first] ∧
    ∀ report : Finset Chars → List Chars,
      report (uploaded_files_after [c5_url_first, c5_url_second])
          = [c5_url_first, c5_url_second] →
      report (uploaded_files_after [c5_url_second, c5_url_first])
          ≠ [c5_url_second, c5_url_first] := by
  have hset : uploaded_files_after [c5_url_first, c5_url_second]
      = uploaded_files_after [c5_url_second, c5_url_first] := by decide
  refine ⟨hset, ?_⟩
  intro report h
  rw [← hset, h]
  decide

/-- Witness for C5's refutation theorem: a report that answers the first
run's completion order necessarily misses the second run's. -/
theorem c5_set_loses_completion_order_witness :
    (fun _ : Finset Chars => [c5_url_first, c5_url_second])
        (uploaded_files_after [c5_url_second, c5_url_first])
      ≠ [c5_url_second, c5_url_first] :=
  c5_set_loses_completion_order.2
    (fun _ => [c5_url_first, c5_url_second]) rfl

/-- While the collecting flag is set, the scan keeps exactly the trimmed
forms of the lines whose trimmed form starts with `http`. -/
theorem collectUrls_true_eq (ls : List Chars) :
    collectUrls true ls
      = (ls.filter (fun l => "http".data.isPrefixOf (pyStrip l))).map pyStrip := by
  induction ls with
  | nil => rfl
  | cons l ls ih =>
    by_cases hm : (pyStrip l == markerLine) = true
    · have hmeq : pyStrip l = markerLine := eq_of_beq hm
      have hh : ("http".data.isPrefixOf (pyStrip l)) = false := by rw [hmeq]; decide
      simp [collectUrls, hm, hh, List.filter_cons, ih]
    · have hm' : (pyStrip l == markerLine) = false := by
        rw [Bool.not_eq_true] at hm; exact hm
      by_cases hh : ("http".data.isPrefixOf (pyStrip l)) = true
      · simp [collectUrls, hm', hh, List.filter_cons, ih]
      · have hh' : ("http".data.isPrefixOf (pyStrip l)) = false := by
          rw [Bool.not_eq_true] at hh; exact hh
        simp [collectUrls, hm', hh', List.filter_cons, ih]

/-- The scan started with a clear collecting flag computes the declarative
reference: drop lines until the first whose trimmed form is the marker, then
keep the trimmed `http` lines after it. -/
theorem collectUrls_false_eq (ls : List Chars) :
    collectUrls false ls = refCoreLines ls := by
  induction ls with
  | nil => rfl
  | cons l ls ih =>
    by_cases hm : (pyStrip l == markerLine) = true
    · have hd : (!(pyStrip l == markerLine)) = false := by rw [hm]; rfl
      rw [refCoreLines, List.dropWhile_cons]
      simp only [hd, Bool.false_eq_true, if_false]
      simp [collectUrls, hm, collectUrls_true_eq]
    · have hm' : (pyStrip l == markerLine) = false := by
        rw [Bool.not_eq_true] at hm; exact hm
      have hd : (!(pyStrip l == markerLine)) = true := by rw [hm']; rfl
      rw [refCoreLines, List.dropWhile_cons]
      simp only [hd, if_true]
      rw [← refCoreLines, ← ih]
      simp [collectUrls, hm']

/-- When every line satisfies the predicate, `dropWhile` drops them all. -/
theorem dropWhile_eq_nil_of_all {α : Type} {p : α → Bool} {ls : List α}
    (h : ls.all p = true) : ls.dropWhile p = [] := by
  induction ls with
  | nil => rfl
  | cons l ls ih =>
    rw [List.all_cons, Bool.and_eq_true] at h
    rw [List.dropWhile_cons, if_pos h.1, ih h.2]

/-- C1 (amended): the orchestrator's parsing of the captured stdout equals
the amended reference — outer whitespace of the stream is stripped, the
collecting flag is set the instant a line's whitespace-trimmed form equals
the marker, and while collecting the whitespace-trimmed form of every line
that, trimmed, starts with `http` is appended in original order; and when no
line trims to the marker, the run returns success with an empty URL list. -/
theorem c1_parser_amended_contract :
    (∀ stdout : Chars, execParse stdout = refParseAmended stdout) ∧
    (∀ (name stdout : Chars),
      (splitNl (pyStrip stdout)).all (fun l => !(pyStrip l == markerLine)) = true →
      (exec_py_runtime name (env_run_ok stdout)).outcome = .ok []) := by
  constructor
  · intro stdout
    rw [execParse, refParseAmended, collectUrls_false_eq]
  · intro name stdout hall
    have hparse : execParse stdout = [] := by
      rw [execParse, collectUrls_false_eq, refCoreLines,
        dropWhile_eq_nil_of_all hall]
    show Outcome.ok (joinComma (execParse stdout)) = Outcome.ok []
    rw [hparse]
    rfl

/-- Witness for C1's amended theorem: the claim's own example — marker, three
URLs, two trailing non-URL lines — and a markerless stdout. -/
theorem c1_parser_amended_contract_witness :
    execParse c1_example = refParseAmended c1_example ∧
    (exec_py_runtime DOCKER_CONTAINER_NAME (env_run_ok c1_no_marker)).outcome
      = .ok [] :=
  ⟨c1_parser_amended_contract.1 c1_example,
   c1_parser_amended_contract.2 DOCKER_CONTAINER_NAME c1_no_marker (by decide)⟩

/-- Counterexample to C1 as stated: on a stdout whose marker line carries
leading whitespace the claim's reference parser (exact marker equality)
collects nothing while the code collects the URL, and on a stdout whose URL
line carries leading whitespace the reference appends the raw line while the
code appends its trimmed form. -/
theorem c1_claim_counterexample :
    refParseClaim c1_cex_marker_ws = [] ∧
    execParse c1_cex_marker_ws = ["http://a".data] ∧
    refParseClaim c1_cex_marker_ws ≠ execParse c1_cex_marker_ws ∧
    refParseClaim c1_cex_url_ws = ["  http://b".data] ∧
    execParse c1_cex_url_ws = ["http://b".data] ∧
    refParseClaim c1_cex_url_ws ≠ execParse c1_cex_url_ws := by
  refine ⟨by decide, by decide, by decide, by decide, by decide, by decide⟩

/-- C2 (refutation support): an isolated run that outlives the timeout is
classified as a `TimeoutError`, but the complete process handling of that
path kills only the docker CLI client — `subprocess.run`'s direct child —
while the daemon-side container running the user code and the watcher is
still alive when `exec_py_runtime` raises. -/
theorem c2_timeout_kills_client_only :
    (exec_py_runtime DOCKER_CONTAINER_NAME env_timeout).outcome
        = .raised (.timeoutError msg_timeout) ∧
    (timeout_path_procs ⟨true, true⟩).client_alive = false ∧
    (timeout_path_procs ⟨true, true⟩).container_alive = true :=
  ⟨rfl, rfl, rfl⟩

/-- C3: the five failure causes surface as five classified outcomes — the
runtime-unreachable and image-missing checks and the nonzero container exit
as `RuntimeError`s with three different texts, the deadline expiry as
`TimeoutError`, the missing right to invoke docker as `PermissionError` —
and these five caller-visible outcomes are pairwise distinct for every image
name and every captured stderr. -/
theorem c3_failure_taxonomy_distinct (name stderr : Chars) :
    (exec_py_runtime name env_docker_unreachable).outcome
        = .raised (.runtimeError (uerr msg_docker_unavailable)) ∧
    (exec_py_runtime name env_image_missing).outcome
        = .raised (.runtimeError (uerr (msg_image name))) ∧
    (exec_py_runtime name env_timeout).outcome
        = .raised (.timeoutError msg_timeout) ∧
    (exec_py_runtime name env_permission_denied).outcome
        = .raised (.permissionError msg_permission) ∧
    (exec_py_runtime name (env_runtime_failure stderr)).outcome
        = .raised (.runtimeError (uerr (msg_docker_failed stderr))) ∧
    (Outcome.raised (.runtimeError (uerr msg_docker_unavailable))
        ≠ .raised (.runtimeError (uerr (msg_image name))) ∧
     Outcome.raised (.runtimeError (uerr msg_docker_unavailable))
        ≠ .raised (.timeoutError msg_timeout) ∧
     Outcome.raised (.runtimeError (uerr msg_docker_unavailable))
        ≠ .raised (.permissionError msg_permission) ∧
     Outcome.raised (.runtimeError (uerr msg_docker_unavailable))
        ≠ .raised (.runtimeError (uerr (msg_docker_failed stderr))) ∧
     Outcome.raised (.runtimeError (uerr (msg_image name)))
        ≠ .raised (.timeoutError msg_timeout) ∧
     Outcome.raised (.runtimeError (uerr (msg_image name)))
        ≠ .raised (.permissionError msg_permission) ∧
     Outcome.raised (.runtimeError (uerr (msg_image name)))
        ≠ .raised (.runtimeError (uerr (msg_docker_failed stderr))) ∧
     Outcome.raised (.timeoutError msg_timeout)
        ≠ .raised (.permissionError msg_permission) ∧
     Outcome.raised (.timeoutError msg_timeout)
        ≠ .raised (.runtimeError (uerr (msg_docker_failed stderr))) ∧
     Outcome.raised (.permissionError msg_permission)
        ≠ .raised (.runtimeError (uerr (msg_docker_failed stderr)))) := by
  refine ⟨rfl, rfl, rfl, rfl, rfl, ?_, ?_, ?_, ?_, ?_, ?_, ?_, ?_, ?_, ?_⟩
  · simp only [ne_eq, Outcome.raised.injEq, PyError.runtimeError.injEq]
    exact msg_ne_env_image name
  · simp
  · simp
  · simp only [ne_eq, Outcome.raised.injEq, PyError.runtimeError.injEq]
    exact msg_ne_env_fail stderr
  · simp
  · simp
  · simp only [ne_eq, Outcome.raised.injEq, PyError.runtimeError.injEq]
    exact msg_ne_image_fail name stderr
  · simp
  · simp
  · simp

/-- C4 (refutation support): when the container exits nonzero with a
captured stderr holding an environment secret, the message `exec_py_runtime`
raises to the caller is the fixed prefix followed by that stderr verbatim —
the secret reaches the caller unredacted. -/
theorem c4_runtime_failure_surfaces_secret :
    (exec_py_runtime DOCKER_CONTAINER_NAME (env_runtime_failure c4_secret)).outcome
      = .raised (.runtimeError
          ("❌ Unexpected error: Docker failed: ".data ++ c4_secret)) := by
  decide

/-- C8: with staging succeeded, a failing `docker --version` (binary absent
or nonzero exit) or a failing `docker inspect` returns at once with its own
classified error, no isolated run attempted and no timed wait performed; and
the runtime-unreachable classifications differ from the image-missing one. -/
theorem c8_preflight_fails_fast (name : Chars) (env : Env)
    (hstage : env.encodeFails = false) :
    (env.version = .noBinary →
      exec_py_runtime name env
        = ⟨.raised (.fileNotFoundError msg_no_docker), true, false, false⟩) ∧
    (∀ rc out err, env.version = .ok rc out err → rc ≠ 0 →
      exec_py_runtime name env
        = ⟨.raised (.runtimeError (uerr msg_docker_unavailable)), true, false, false⟩) ∧
    (∀ out err rc2 out2 err2, env.version = .ok 0 out err →
      env.inspect = .ok rc2 out2 err2 → rc2 ≠ 0 →
      exec_py_runtime name env
        = ⟨.raised (.runtimeError (uerr (msg_image name))), true, false, false⟩) ∧
    Outcome.raised (.runtimeError (uerr msg_docker_unavailable))
      ≠ .raised (.runtimeError (uerr (msg_image name))) ∧
    Outcome.raised (.fileNotFoundError msg_no_docker)
      ≠ .raised (.runtimeError (uerr (msg_image name))) := by
  refine ⟨?_, ?_, ?_, ?_, ?_⟩
  · intro hv
    simp only [exec_py_runtime, hstage, Bool.false_eq_true, if_false, hv]
  · intro rc out err hv hrc
    simp only [exec_py_runtime, hstage, Bool.false_eq_true, if_false, hv]
    rw [if_pos hrc]
  · intro out err rc2 out2 err2 hv hi hrc2
    simp only [exec_py_runtime, hstage, Bool.false_eq_true, if_false, hv, hi]
    rw [if_neg (by simp), if_pos hrc2]
  · simp only [ne_eq, Outcome.raised.injEq, PyError.runtimeError.injEq]
    exact msg_ne_env_image name
  · simp

/-- Witness for C8 at a concrete environment: image missing, preflight
returns the image classification with no run and no timed wait. -/
theorem c8_preflight_fails_fast_witness :
    exec_py_runtime DOCKER_CONTAINER_NAME env_image_missing
      = ⟨.raised (.runtimeError (uerr (msg_image DOCKER_CONTAINER_NAME))),
         true, false, false⟩ :=
  (c8_preflight_fails_fast DOCKER_CONTAINER_NAME env_image_missing rfl).2.2.1
    [] [] 1 [] [] rfl rfl (by decide)

/-- C9: on every modelled path on which the staging write succeeded the
`finally` block removes the staged file before the call returns or raises;
but on the path where the encode/write raises after the temporary file was
created, the file is left behind. -/
theorem c9_staging_cleanup_gap :
    (∀ (name : Chars) (env : Env), env.encodeFails = false →
      (exec_py_runtime name env).staged_file_removed = true) ∧
    (exec_py_runtime DOCKER_CONTAINER_NAME env_staging_write_fails).staged_file_removed
      = false := by
  constructor
  · intro name env h
    obtain ⟨ef, ee, v, i, r⟩ := env
    dsimp only at h
    subst h
    rw [exec_py_runtime]
    simp only [Bool.false_eq_true, if_false]
    cases v with
    | noBinary => rfl
    | noPermission => rfl
    | ok rc out err =>
      dsimp only
      by_cases hrc : rc ≠ 0
      · rw [if_pos hrc]
      · rw [if_neg hrc]
        cases i with
        | noBinary => rfl
        | noPermission => rfl
        | ok rc2 out2 err2 =>
          dsimp only
          by_cases hrc2 : rc2 ≠ 0
          · rw [if_pos hrc2]
          · rw [if_neg hrc2]
            cases r with
            | timedOut => rfl
            | noBinary => rfl
            | noPermission => rfl
            | ok rc3 out3 err3 =>
              dsimp only
              by_cases hrc3 : rc3 ≠ 0
              · rw [if_pos hrc3]
              · rw [if_neg hrc3]
  · rfl

/-- Witness for C9's cleanup part at a concrete environment: on the timeout
path the staged file is removed. -/
theorem c9_staging_cleanup_gap_witness :
    (exec_py_runtime DOCKER_CONTAINER_NAME env_timeout).staged_file_removed = true :=
  c9_staging_cleanup_gap.1 DOCKER_CONTAINER_NAME env_timeout rfl
